import Mathlib

/-!
Shallow embedding of the Monitor_NUC financial and maintenance analytics code:
`MaintenanceCalculator` (src/templates/maintenance-calculator.js) and
`ReportGenerator` (the unnamed report-generator source file).  JavaScript
numbers are modelled as exact rationals extended with the special values
`NaN`, `+Infinity` and `-Infinity`; missing object fields are modelled with
`Option`.
-/

namespace MonitorNUC

/-- JavaScript number: an exact rational or one of the IEEE special values.
Arithmetic on ordinary values is exact (the source only needs additions,
subtractions, multiplications and divisions of decimal amounts). -/
inductive JSNum where
  | nan
  | inf
  | ninf
  | num (q : ℚ)
deriving DecidableEq, Repr

namespace JSNum

/-- JavaScript addition, with NaN and infinity propagation. -/
def add : JSNum → JSNum → JSNum
  | nan, _ => nan
  | _, nan => nan
  | inf, ninf => nan
  | ninf, inf => nan
  | inf, _ => inf
  | _, inf => inf
  | ninf, _ => ninf
  | _, ninf => ninf
  | num a, num b => num (a + b)

/-- JavaScript subtraction, with NaN and infinity propagation. -/
def sub : JSNum → JSNum → JSNum
  | nan, _ => nan
  | _, nan => nan
  | inf, inf => nan
  | ninf, ninf => nan
  | inf, _ => inf
  | ninf, _ => ninf
  | _, inf => ninf
  | _, ninf => inf
  | num a, num b => num (a - b)

/-- JavaScript multiplication, with NaN and infinity propagation
(infinity times zero is NaN). -/
def mul : JSNum → JSNum → JSNum
  | nan, _ => nan
  | _, nan => nan
  | inf, inf => inf
  | inf, ninf => ninf
  | ninf, inf => ninf
  | ninf, ninf => inf
  | inf, num b => if b > 0 then inf else if b < 0 then ninf else nan
  | num a, inf => if a > 0 then inf else if a < 0 then ninf else nan
  | ninf, num b => if b > 0 then ninf else if b < 0 then inf else nan
  | num a, ninf => if a > 0 then ninf else if a < 0 then inf else nan
  | num a, num b => num (a * b)

/-- JavaScript division: division by (positive) zero yields a signed
infinity, zero over zero yields NaN, finite over infinite yields zero. -/
def div : JSNum → JSNum → JSNum
  | nan, _ => nan
  | _, nan => nan
  | inf, inf => nan
  | inf, ninf => nan
  | ninf, inf => nan
  | ninf, ninf => nan
  | inf, num b => if b < 0 then ninf else inf
  | ninf, num b => if b < 0 then inf else ninf
  | num _, inf => num 0
  | num _, ninf => num 0
  | num a, num b =>
      if b = 0 then (if a > 0 then inf else if a < 0 then ninf else nan)
      else num (a / b)

/-- JavaScript `<=` comparison as a boolean: any comparison with NaN is
false. -/
def le : JSNum → JSNum → Bool
  | nan, _ => false
  | _, nan => false
  | ninf, _ => true
  | _, ninf => false
  | _, inf => true
  | inf, num _ => false
  | num a, num b => decide (a ≤ b)

end JSNum

/-- JavaScript `x || d` for a possibly missing number `x`: the default is
taken when the value is absent (`undefined`/`null`) or equal to `0` (both
are falsy). -/
def jsOrQ (v : Option ℚ) (d : ℚ) : ℚ :=
  match v with
  | none => d
  | some q => if q = 0 then d else q

/-- Hourly rates by technician category (`this.hourlyRates`). -/
def hourlyRates : List (String × ℚ) :=
  [("tecnico_regular", 120),
   ("tecnico_especializado", 180),
   ("ingeniero", 250),
   ("contratista", 150)]

/-- Unit costs by material kind (`this.materialCosts`). -/
def materialCosts : List (String × ℚ) :=
  [("dioxido_titanio", 45),
   ("modulo_led", 250),
   ("fuente_poder", 180),
   ("cable_fat", 45),
   ("novastar_mctrl300", 350),
   ("ventilador", 85),
   ("tarjeta_control", 120)]

/-- Fees by additional-service flag (`this.additionalCosts`). -/
def additionalCostsTable : List (String × ℚ) :=
  [("traslado", 150),
   ("herramienta_especial", 75),
   ("material_consumible", 30)]

/-- One consumed material: kind plus possibly missing quantity. -/
structure Material where
  type : String
  quantity : Option ℚ
deriving DecidableEq, Repr

/-- Input object of `calculateMaintenanceCost`; every field may be absent
(the source destructures with defaults for all fields except `hours`). -/
structure MaintInput where
  hours : Option ℚ
  technicianType : Option String
  materials : Option (List Material)
  additionalServices : Option (List String)
  travelDistance : Option ℚ
deriving DecidableEq, Repr

/-- Cost breakdown returned by `calculateMaintenanceCost`.  Labor and total
cost are `JSNum` because `hours` may be absent, in which case
`hours * hourlyRate` is NaN in JavaScript. -/
structure CostBreakdown where
  laborCost : JSNum
  materialsCost : ℚ
  additionalCosts : ℚ
  travelCost : ℚ
  totalCost : JSNum
  hourlyRate : ℚ
deriving DecidableEq, Repr

/-- Cost of one material line: `(this.materialCosts[m.type] || 0) *
(m.quantity || 1)`. -/
def materialItemCost (m : Material) : ℚ :=
  jsOrQ (materialCosts.lookup m.type) 0 * jsOrQ m.quantity 1

/-- Sum of the material line costs (`materials.reduce`). -/
def materialsCostOf (ms : List Material) : ℚ :=
  (ms.map materialItemCost).sum

/-- Fee of one additional-service flag: `this.additionalCosts[s] || 0`. -/
def serviceCost (s : String) : ℚ :=
  jsOrQ (additionalCostsTable.lookup s) 0

/-- Sum of the additional-service fees (`additionalServices.reduce`). -/
def servicesCostOf (ss : List String) : ℚ :=
  (ss.map serviceCost).sum

/-- Travel cost: one `traslado` fee per started block of 50 distance units,
zero when the distance is not positive. -/
def travelCostOf (travelDistance : ℚ) : ℚ :=
  if travelDistance > 0 then
    (⌈travelDistance / 50⌉ : ℚ) * (additionalCostsTable.lookup "traslado").getD 0
  else 0

/-- Embedding of `MaintenanceCalculator.calculateMaintenanceCost`.  The
labor cost is `hours * hourlyRate`, which is NaN when `hours` is absent;
the running `total` accumulates labor, materials, additional services and
travel with JavaScript addition. -/
def calculateMaintenanceCost (data : MaintInput) : CostBreakdown :=
  let technicianType := data.technicianType.getD "tecnico_regular"
  let materials := data.materials.getD []
  let additionalServices := data.additionalServices.getD []
  let travelDistance := data.travelDistance.getD 0
  let hourlyRate :=
    jsOrQ (hourlyRates.lookup technicianType)
      ((hourlyRates.lookup "tecnico_regular").getD 0)
  let laborCost : JSNum :=
    match data.hours with
    | none => .nan
    | some h => .num (h * hourlyRate)
  let materialsCost := materialsCostOf materials
  let additionalCosts := servicesCostOf additionalServices
  let travelCost := travelCostOf travelDistance
  let total : JSNum :=
    ((((JSNum.num 0).add laborCost).add (.num materialsCost)).add
        (.num additionalCosts)).add (.num travelCost)
  { laborCost := laborCost
    materialsCost := materialsCost
    additionalCosts := additionalCosts
    travelCost := travelCost
    totalCost := total
    hourlyRate := hourlyRate }

/-- Evaluation helper: ceiling of 51/50 is 2. -/
lemma ceil_51_div_50 : (⌈(51 : ℚ) / 50⌉ : ℤ) = 2 := by
  rw [Int.ceil_eq_iff] ; norm_num

example :
    calculateMaintenanceCost
      ⟨some 2, some "ingeniero", some [⟨"ventilador", some 2⟩],
        some ["herramienta_especial"], some 51⟩ =
      ⟨.num 500, 170, 75, 300, .num 1045, 250⟩ := by
  simp [calculateMaintenanceCost, materialsCostOf, materialItemCost, servicesCostOf,
    serviceCost, travelCostOf, jsOrQ, List.lookup, JSNum.add, ceil_51_div_50]
  norm_num

example :
    (calculateMaintenanceCost ⟨none, none, none, none, none⟩).totalCost =
      .nan := by
  simp [calculateMaintenanceCost, JSNum.add]

/-- State of the asset `capex_data` column as seen after the
`screen.capex_data ? JSON.parse(screen.capex_data) : \x7b\x7d` step:
`absent` is a falsy column (missing or empty string), `malformed` is a
value on which parsing (or `Object.values`) throws, and `parsed` is a
successfully parsed object, each field carried with the `Number`-coercion
of its value (`none` when the value is not numeric-coercible, i.e. NaN). -/
inductive CapexData where
  | absent
  | malformed
  | parsed (entries : List (String × Option ℚ))
deriving DecidableEq, Repr

/-- Embedding of `MaintenanceCalculator.calculateCapexTotal`: zero on a
falsy or unparsable blob, otherwise `reduce((sum, val) => sum + (Number(val)
|| 0), 0)` over the object values. -/
def calculateCapexTotal : CapexData → ℚ
  | .absent => 0
  | .malformed => 0
  | .parsed es => (es.map (fun e => jsOrQ e.2 0)).sum

/-- Embedding of the `total` field of `ReportGenerator.calculateCapex`:
the `catch` branch returns an object whose `total` is 0, the other fields
of the returned block are display-only lookups no claim depends on. -/
def calculateCapex_total : CapexData → ℚ
  | .absent => 0
  | .malformed => 0
  | .parsed es => (es.map (fun e => jsOrQ e.2 0)).sum

/-- Asset (screen) record, restricted to the fields the analytics code
reads.  `uptime` is the `parseFloat` image of the stored uptime string
(`none` when the field is missing or does not parse). -/
structure Screen where
  ingresos_mensuales : Option ℚ
  gastos_mensuales : Option ℚ
  capex_data : CapexData
  roi : Option ℚ
  uptime : Option ℚ
deriving DecidableEq, Repr

/-- Monthly profit as computed at each use site:
`(screen.ingresos_mensuales || 0) - (screen.gastos_mensuales || 0)`. -/
def monthlyProfitOf (s : Screen) : ℚ :=
  jsOrQ s.ingresos_mensuales 0 - jsOrQ s.gastos_mensuales 0

/-- Decimal rendering of a rational to one fractional digit, modelling
`Number.prototype.toFixed(1)` (half-away-from-zero rounding; the bit-exact
binary-float rounding is abstracted, no claim depends on the digits). -/
def toFixed1 (q : ℚ) : String :=
  let n : ℤ := if q ≥ 0 then ⌊q * 10 + 1 / 2⌋ else -⌊-q * 10 + 1 / 2⌋
  let whole : ℤ := n / 10
  let frac : ℕ := (n % 10).natAbs
  (if n < 0 ∧ whole = 0 then "-" else "") ++ toString whole ++ "." ++ toString frac

/-- Rendering of a JavaScript number to one fractional digit
(`toFixed(1)`, which on the special values yields their names). -/
def jsToFixed1 : JSNum → String
  | .nan => "NaN"
  | .inf => "Infinity"
  | .ninf => "-Infinity"
  | .num q => toFixed1 q

/-- JavaScript `%` (fmod) for the nonnegative operands the source feeds
it. -/
def jsMod (a b : ℚ) : ℚ := a - b * (⌊a / b⌋ : ℚ)

/-- Result object of `ReportGenerator.generateROIAnalysis`. -/
structure ROIAnalysis where
  roiMonths : String
  roiPercentage : String
  paybackPeriod : String
  recommendation : String
deriving DecidableEq, Repr

/-- Embedding of `ReportGenerator.generateROIAnalysis`: guarded
"not profitable" branch when monthly profit or capex is non-positive,
otherwise months, annualized percentage, payback period and a
24-month recommendation threshold. -/
def generateROIAnalysis (s : Screen) : ROIAnalysis :=
  let capex := calculateCapex_total s.capex_data
  let monthlyProfit := monthlyProfitOf s
  if monthlyProfit ≤ 0 ∨ capex ≤ 0 then
    { roiMonths := "∞"
      roiPercentage := "0%"
      paybackPeriod := "No aplica"
      recommendation := "Pantalla no rentable" }
  else
    let roiMonths := capex / monthlyProfit
    let roiPercentage := monthlyProfit / capex * 100 * 12
    { roiMonths := toFixed1 roiMonths
      roiPercentage := toFixed1 roiPercentage ++ "%"
      paybackPeriod :=
        toString (⌈roiMonths / 12⌉ : ℤ) ++ " años " ++
          toString (⌈jsMod roiMonths 12⌉ : ℤ) ++ " meses"
      recommendation :=
        if roiMonths ≤ 24 then "Excelente inversión"
        else "Evaluar mejora de rentabilidad" }

/-- Embedding of `MaintenanceCalculator.getROIRecommendation`: five-tier
step function of the adjusted ROI; every `<=` against NaN is false, so NaN
(and +Infinity) land in the last tier. -/
def getROIRecommendation (roi : JSNum) : String :=
  if roi.le (.num 12) then "Excelente - Mantenimiento altamente rentable"
  else if roi.le (.num 18) then "Bueno - Impacto positivo en ROI"
  else if roi.le (.num 24) then "Aceptable - Dentro de parámetros esperados"
  else if roi.le (.num 36) then "Regular - Evaluar necesidad del mantenimiento"
  else "Crítico - Reconsiderar la inversión"

/-- Result object of `MaintenanceCalculator.calculateROIImpact`. -/
structure ROIImpact where
  roiBefore : String
  roiAfter : String
  impact : String
  monthsToRecover : String
  recommendation : String
deriving DecidableEq, Repr

/-- Embedding of `MaintenanceCalculator.calculateROIImpact`.  The
divisions by `monthlyProfit` are unguarded in the source, so a
non-positive profit produces infinite or NaN ratios, never a dedicated
"not profitable" result. -/
def calculateROIImpact (s : Screen) (maintenanceCost : ℚ) : ROIImpact :=
  let capex := calculateCapexTotal s.capex_data
  let monthlyProfit := monthlyProfitOf s
  let roiBefore := JSNum.div (.num capex) (.num monthlyProfit)
  let adjustedCapex := capex + maintenanceCost
  let roiAfter := JSNum.div (.num adjustedCapex) (.num monthlyProfit)
  { roiBefore := jsToFixed1 roiBefore
    roiAfter := jsToFixed1 roiAfter
    impact := jsToFixed1 (((roiAfter.sub roiBefore).div roiBefore).mul (.num 100))
    monthsToRecover :=
      jsToFixed1 (JSNum.div (.num maintenanceCost) (.num monthlyProfit))
    recommendation := getROIRecommendation roiAfter }

/-- Embedding of `MaintenanceCalculator.updateScreenROI` as the ROI write
it issues: `none` when nothing is written (screen not found, or
`monthlyProfit <= 0`), `some r` when the screen `roi` column is updated
to `r`. -/
def updateScreenROI : Option Screen → ℚ → Option ℚ
  | none, _ => none
  | some screen, maintenanceCost =>
    let capex := calculateCapexTotal screen.capex_data
    let monthlyProfit := monthlyProfitOf screen
    if monthlyProfit ≤ 0 then none
    else some ((capex + maintenanceCost) / monthlyProfit)

/-- Profit margin as computed in `ReportGenerator.calculateStats`:
`screen.ingresos_mensuales > 0 ? ((ingresos - gastos) / ingresos) * 100 :
0`.  A missing revenue field compares false against 0; a missing expense
field makes the subtraction NaN. -/
def calculateStats_profitMargin (s : Screen) : JSNum :=
  match s.ingresos_mensuales with
  | none => .num 0
  | some i =>
    if i > 0 then
      match s.gastos_mensuales with
      | some g => .num ((i - g) / i * 100)
      | none => .nan
    else .num 0

/-- Profit margin as computed in the executive summary of
`ReportGenerator.createPDFData`:
`((ingresos || 0) - (gastos || 0)) / (ingresos || 1) * 100`. -/
def executiveSummary_profitMargin (s : Screen) : ℚ :=
  (jsOrQ s.ingresos_mensuales 0 - jsOrQ s.gastos_mensuales 0) /
    jsOrQ s.ingresos_mensuales 1 * 100

/-- Calendar position of a JavaScript `Date` as far as
`generateRecommendations` reads it: `getFullYear()` and `getMonth()`. -/
structure JSDate where
  year : ℤ
  month : ℤ
deriving DecidableEq, Repr

/-- Row of the `mantenimientos` table, restricted to the columns the
report generator reads.  `horas` is the labor-hours column written on
insert; `duracion_horas` is the column `calculateDaysOnline` reads. -/
structure MRow where
  fecha : JSDate
  tipo : Option String
  horas : Option ℚ
  duracion_horas : Option ℚ
deriving DecidableEq, Repr

/-- One strategic recommendation produced by the report generator. -/
structure Recommendation where
  priority : String
  title : String
  description : String
  action : String
deriving DecidableEq, Repr

/-- Recommendation pushed by the cached-ROI rule (`roi > 24`). -/
def recOptimizar : Recommendation :=
  { priority := "Alta"
    title := "Optimizar Rentabilidad"
    description :=
      "El ROI supera los 24 meses. Considerar aumentar ingresos o reducir gastos."
    action := "Revisar contratos publicitarios y costos operativos" }

/-- Recommendation pushed by the stale-maintenance rule
(`monthsSince > 3`). -/
def recPreventivo (monthsSince : ℤ) : Recommendation :=
  { priority := "Media"
    title := "Programar Mantenimiento Preventivo"
    description :=
      "Han pasado " ++ toString monthsSince ++
        " meses desde el último mantenimiento."
    action := "Agendar mantenimiento preventivo para el próximo mes" }

/-- Recommendation pushed by the low-uptime rule (`uptime < 95`). -/
def recDisponibilidad (uptime : ℚ) : Recommendation :=
  { priority := "Alta"
    title := "Mejorar Disponibilidad"
    description :=
      "El uptime (" ++ toString uptime ++
        "%) está por debajo del estándar industrial (95%)."
    action := "Investigar causas de desconexión y mejorar infraestructura" }

/-- Fallback recommendation pushed when no rule fired. -/
def recFallback : Recommendation :=
  { priority := "Baja"
    title := "Mantener Estrategia Actual"
    description := "La pantalla opera dentro de parámetros óptimos."
    action := "Continuar con monitoreo y mantenimientos preventivos programados" }

/-- Months elapsed between the newest maintenance date and today, as
computed by the stale-maintenance rule:
`(yearsDiff) * 12 + (monthsDiff)`. -/
def monthsSinceOf (today lastDate : JSDate) : ℤ :=
  (today.year - lastDate.year) * 12 + (today.month - lastDate.month)

/-- Embedding of `ReportGenerator.generateRecommendations`: three
independent rules evaluated in order (cached ROI above 24 months, more
than three calendar months since the newest maintenance, uptime below
95), then a single fallback pushed only when no rule fired. -/
def generateRecommendations (s : Screen) (maintenances : List MRow)
    (today : JSDate) : List Recommendation :=
  let recommendations : List Recommendation := []
  let roi := jsOrQ s.roi 0
  let recommendations :=
    if roi > 24 then recommendations ++ [recOptimizar] else recommendations
  let recommendations :=
    match maintenances with
    | [] => recommendations
    | lastMaintenance :: _ =>
      let monthsSince := monthsSinceOf today lastMaintenance.fecha
      if monthsSince > 3 then recommendations ++ [recPreventivo monthsSince]
      else recommendations
  let uptime := jsOrQ s.uptime 0
  let recommendations :=
    if uptime < 95 then recommendations ++ [recDisponibilidad uptime]
    else recommendations
  if recommendations.isEmpty then [recFallback] else recommendations

/-- Embedding of `ReportGenerator.calculateDaysOnline`.  `elapsedMs` is
the millisecond difference `today - installDate`; the whole-day count is
floored, each maintenance contributes `(m.duracion_horas || 0) / 24`, and
the difference is floored again. -/
def calculateDaysOnline (elapsedMs : ℤ) (maintenances : List MRow) : ℤ :=
  let totalDays : ℤ := ⌊(elapsedMs : ℚ) / (1000 * 60 * 60 * 24)⌋
  let maintenanceDays : ℚ :=
    (maintenances.map (fun m => jsOrQ m.duracion_horas 0 / 24)).sum
  ⌊(totalDays : ℚ) - maintenanceDays⌋

/-- Operator-supplied input of `saveMaintenanceToDB`
(`maintenanceData`). -/
structure MaintenanceData where
  pantalla_id : ℕ
  fecha : Option String
  tipo : Option String
  horas : Option ℚ
  tipo_tecnico : Option String
  descripcion : Option String
  materiales : Option (List Material)
  servicios_adicionales : Option (List String)
  distancia_traslado : Option ℚ
deriving DecidableEq, Repr

/-- Row inserted into `mantenimientos` by `saveMaintenanceToDB` (timestamp
columns omitted).  Note the record has labor, materials, total and rate
columns, one merged `costo_adicional` column, and no `duracion_horas`
column. -/
structure MaintenanceRecord where
  pantalla_id : ℕ
  fecha : String
  tipo : String
  horas : Option ℚ
  tipo_tecnico : Option String
  descripcion : Option String
  materiales : List Material
  servicios_adicionales : List String
  distancia_traslado : ℚ
  costo_mano_obra : JSNum
  costo_materiales : ℚ
  costo_adicional : ℚ
  costo_total : JSNum
  tasa_horaria : ℚ
deriving DecidableEq, Repr

/-- Pure record-building part of `MaintenanceCalculator.saveMaintenanceToDB`:
computes the cost breakdown and assembles the row to insert
(`todayStr` stands for the ISO date part of the current timestamp). -/
def buildMaintenanceRecord (d : MaintenanceData) (todayStr : String) :
    MaintenanceRecord :=
  let costBreakdown :=
    calculateMaintenanceCost
      { hours := d.horas
        technicianType := d.tipo_tecnico
        materials := some (d.materiales.getD [])
        additionalServices := some (d.servicios_adicionales.getD [])
        travelDistance := some (d.distancia_traslado.getD 0) }
  { pantalla_id := d.pantalla_id
    fecha := d.fecha.getD todayStr
    tipo := d.tipo.getD "preventivo"
    horas := d.horas
    tipo_tecnico := d.tipo_tecnico
    descripcion := d.descripcion
    materiales := d.materiales.getD []
    servicios_adicionales := d.servicios_adicionales.getD []
    distancia_traslado := d.distancia_traslado.getD 0
    costo_mano_obra := costBreakdown.laborCost
    costo_materiales := costBreakdown.materialsCost
    costo_adicional := costBreakdown.additionalCosts + costBreakdown.travelCost
    costo_total := costBreakdown.totalCost
    tasa_horaria := costBreakdown.hourlyRate }

/-- Reading a stored maintenance record back as a row of the
`mantenimientos` table: columns present in the insert keep their values,
and the `duracion_horas` column, which the insert never writes, comes
back null (`fechaParsed` stands for `new Date(r.fecha)`). -/
def rowOfRecord (r : MaintenanceRecord) (fechaParsed : JSDate) : MRow :=
  { fecha := fechaParsed
    tipo := some r.tipo
    horas := r.horas
    duracion_horas := none }

/-!  Theorems settling the claims. -/

/-- JavaScript `v || 0` on a number-or-missing value is plain defaulting:
the extra zero test is the identity there. -/
lemma jsOrQ_zero (v : Option ℚ) : jsOrQ v 0 = v.getD 0 := by
  cases v with
  | none => rfl
  | some q =>
    simp only [jsOrQ, Option.getD_some]
    split_ifs with h
    · exact h.symm
    · rfl

/-- JavaScript `q || 0` on a present number is that number. -/
lemma jsOrQ_some_zero (q : ℚ) : jsOrQ (some q) 0 = q := by
  rw [jsOrQ_zero, Option.getD_some]

/-- C7: `calculateCapexTotal` is 0 on an absent, malformed or empty capex
blob, and otherwise sums the numeric-coercible values across all
categories, each non-numeric entry contributing 0; the capex block
total of the report assembler (`calculateCapex`) computes the same function. -/
theorem calculateCapexTotal_spec :
    calculateCapexTotal .absent = 0 ∧
    calculateCapexTotal .malformed = 0 ∧
    calculateCapexTotal (.parsed []) = 0 ∧
    (∀ es : List (String × Option ℚ),
      calculateCapexTotal (.parsed es) =
        (es.map (fun e => e.2.getD 0)).sum) ∧
    (∀ b, calculateCapex_total b = calculateCapexTotal b) := by
  refine ⟨rfl, rfl, rfl, ?_, ?_⟩
  · intro es
    simp only [calculateCapexTotal, jsOrQ_zero]
  · intro b
    cases b <;> rfl

/-- C10: `getROIRecommendation` is a total five-tier step function of the
adjusted ROI with boundaries 12, 18, 24 and 36, NaN (and +Infinity) fall
into the final tier, and `calculateROIImpact` consumes it on the adjusted
ROI. -/
theorem getROIRecommendation_spec :
    (∀ q : ℚ,
      (q ≤ 12 →
        getROIRecommendation (.num q) =
          "Excelente - Mantenimiento altamente rentable") ∧
      (12 < q → q ≤ 18 →
        getROIRecommendation (.num q) = "Bueno - Impacto positivo en ROI") ∧
      (18 < q → q ≤ 24 →
        getROIRecommendation (.num q) =
          "Aceptable - Dentro de parámetros esperados") ∧
      (24 < q → q ≤ 36 →
        getROIRecommendation (.num q) =
          "Regular - Evaluar necesidad del mantenimiento") ∧
      (36 < q →
        getROIRecommendation (.num q) =
          "Crítico - Reconsiderar la inversión")) ∧
    getROIRecommendation .nan = "Crítico - Reconsiderar la inversión" ∧
    getROIRecommendation .inf = "Crítico - Reconsiderar la inversión" ∧
    (∀ s mc, (calculateROIImpact s mc).recommendation =
      getROIRecommendation
        (JSNum.div (.num (calculateCapexTotal s.capex_data + mc))
          (.num (monthlyProfitOf s)))) := by
  refine ⟨?_, rfl, rfl, fun s mc => rfl⟩
  intro q
  refine ⟨?_, ?_, ?_, ?_, ?_⟩ <;>
    intros <;>
    simp only [getROIRecommendation, JSNum.le, decide_eq_true_eq] <;>
    split_ifs <;> first | rfl | linarith

/-- Witness for C10 at concrete adjusted-ROI values in each tier. -/
theorem getROIRecommendation_spec_witness :
    getROIRecommendation (.num 10) =
      "Excelente - Mantenimiento altamente rentable" ∧
    getROIRecommendation (.num 15) = "Bueno - Impacto positivo en ROI" ∧
    getROIRecommendation (.num 20) =
      "Aceptable - Dentro de parámetros esperados" ∧
    getROIRecommendation (.num 30) =
      "Regular - Evaluar necesidad del mantenimiento" ∧
    getROIRecommendation (.num 40) =
      "Crítico - Reconsiderar la inversión" :=
  ⟨(getROIRecommendation_spec.1 10).1 (by norm_num),
   (getROIRecommendation_spec.1 15).2.1 (by norm_num) (by norm_num),
   (getROIRecommendation_spec.1 20).2.2.1 (by norm_num) (by norm_num),
   (getROIRecommendation_spec.1 30).2.2.2.1 (by norm_num) (by norm_num),
   (getROIRecommendation_spec.1 40).2.2.2.2 (by norm_num)⟩

/-- C9: a technician category outside the rate table falls back to the
regular-technician rate of 120, and a material kind or service flag
outside the cost tables contributes exactly 0 to the total. -/
theorem unknown_keys_spec :
    (∀ d : MaintInput, ∀ t, d.technicianType = some t →
      hourlyRates.lookup t = none →
      (calculateMaintenanceCost d).hourlyRate = 120) ∧
    (∀ m : Material, materialCosts.lookup m.type = none →
      materialItemCost m = 0) ∧
    (∀ m : Material, ∀ rest, materialCosts.lookup m.type = none →
      materialsCostOf (m :: rest) = materialsCostOf rest) ∧
    (∀ f, additionalCostsTable.lookup f = none → serviceCost f = 0) ∧
    (∀ f rest, additionalCostsTable.lookup f = none →
      servicesCostOf (f :: rest) = servicesCostOf rest) := by
  have hmat : ∀ m : Material, materialCosts.lookup m.type = none →
      materialItemCost m = 0 := by
    intro m h
    simp [materialItemCost, h, jsOrQ]
  have hserv : ∀ f, additionalCostsTable.lookup f = none →
      serviceCost f = 0 := by
    intro f h
    simp [serviceCost, h, jsOrQ]
  refine ⟨?_, hmat, ?_, hserv, ?_⟩
  · intro d t ht hl
    simp only [calculateMaintenanceCost, ht, Option.getD_some, hl, jsOrQ]
    rfl
  · intro m rest h
    simp [materialsCostOf, hmat m h]
  · intro f rest h
    simp [servicesCostOf, hserv f h]

/-- Witness for C9 at keys that are not in any table. -/
theorem unknown_keys_spec_witness :
    (calculateMaintenanceCost
      ⟨some 1, some "tecnico_fantasma", none, none, none⟩).hourlyRate = 120 ∧
    materialItemCost ⟨"material_fantasma", some 3⟩ = 0 ∧
    serviceCost "servicio_fantasma" = 0 :=
  ⟨unknown_keys_spec.1 _ "tecnico_fantasma" rfl (by decide),
   unknown_keys_spec.2.1 _ (by decide),
   unknown_keys_spec.2.2.2.1 _ (by decide)⟩

/-- C8: the maintenance-creation side effect writes the cached ROI
`(capex + event cost) / monthlyProfit` exactly when `monthlyProfit > 0`,
and issues no write at all when `monthlyProfit ≤ 0`. -/
theorem updateScreenROI_spec (s : Screen) (mc : ℚ) :
    (monthlyProfitOf s ≤ 0 → updateScreenROI (some s) mc = none) ∧
    (0 < monthlyProfitOf s →
      updateScreenROI (some s) mc =
        some ((calculateCapexTotal s.capex_data + mc) / monthlyProfitOf s)) := by
  constructor
  · intro h
    simp [updateScreenROI, h]
  · intro h
    simp [updateScreenROI, not_le.mpr h]

/-- Witness for C8: a loss-making screen gets no ROI write, a profitable
one gets `(capex + cost) / profit` (here `(30 + 10) / 20 = 2`). -/
theorem updateScreenROI_spec_witness :
    updateScreenROI (some ⟨some 5, some 10, .absent, none, none⟩) 7 = none ∧
    updateScreenROI
      (some ⟨some 30, some 10, .parsed [("pantalla", some 30)], none, none⟩) 10 =
      some 2 := by
  constructor
  · exact (updateScreenROI_spec _ 7).1 (by norm_num [monthlyProfitOf, jsOrQ])
  · rw [(updateScreenROI_spec _ 10).2 (by norm_num [monthlyProfitOf, jsOrQ])]
    norm_num [calculateCapexTotal, monthlyProfitOf, jsOrQ]

/-- C2 counterexample: at revenue 0 and expense 5, `calculateStats` yields
margin 0 but the executive-summary margin is −500, not 0 (the display
string divides by `ingresos || 1`). -/
theorem executiveSummary_margin_counterexample :
    calculateStats_profitMargin ⟨some 0, some 5, .absent, none, none⟩ =
      .num 0 ∧
    executiveSummary_profitMargin ⟨some 0, some 5, .absent, none, none⟩ =
      -500 ∧
    (-500 : ℚ) ≠ 0 := by
  refine ⟨?_, ?_, by norm_num⟩
  · simp [calculateStats_profitMargin]
  · norm_num [executiveSummary_profitMargin, jsOrQ]

/-- C2 amended: both margin computations agree with
`(revenue − expense) / revenue × 100` when revenue is positive; at
revenue 0 the summary statistic is 0 as claimed, but the
executive-summary string divides by the fallback denominator 1 and equals
`−expense × 100`, which is 0 only when the expense is 0. -/
theorem profitMargin_spec (s : Screen) (i g : ℚ)
    (hi : s.ingresos_mensuales = some i) (hg : s.gastos_mensuales = some g) :
    (0 < i →
      calculateStats_profitMargin s = .num ((i - g) / i * 100) ∧
      executiveSummary_profitMargin s = (i - g) / i * 100) ∧
    (i = 0 →
      calculateStats_profitMargin s = .num 0 ∧
      executiveSummary_profitMargin s = -g * 100) := by
  constructor
  · intro h
    have hne : i ≠ 0 := ne_of_gt h
    constructor
    · simp [calculateStats_profitMargin, hi, hg, h]
    · unfold executiveSummary_profitMargin
      rw [hi, hg, jsOrQ_some_zero, jsOrQ_some_zero]
      simp [jsOrQ, hne]
  · intro h
    constructor
    · simp [calculateStats_profitMargin, hi, h]
    · unfold executiveSummary_profitMargin
      rw [hi, hg, jsOrQ_some_zero, jsOrQ_some_zero, h]
      simp [jsOrQ]

/-- Witness for C2 amended: revenue 10, expense 4 gives margin 60 in both
places; revenue 0, expense 0 gives 0 in both places. -/
theorem profitMargin_spec_witness :
    calculateStats_profitMargin ⟨some 10, some 4, .absent, none, none⟩ =
      .num 60 ∧
    executiveSummary_profitMargin ⟨some 10, some 4, .absent, none, none⟩ =
      60 ∧
    calculateStats_profitMargin ⟨some 0, some 0, .absent, none, none⟩ =
      .num 0 ∧
    executiveSummary_profitMargin ⟨some 0, some 0, .absent, none, none⟩ =
      0 := by
  obtain ⟨h1, h2⟩ :=
    (profitMargin_spec ⟨some 10, some 4, .absent, none, none⟩ 10 4 rfl rfl).1
      (by norm_num)
  obtain ⟨h3, h4⟩ :=
    (profitMargin_spec ⟨some 0, some 0, .absent, none, none⟩ 0 0 rfl rfl).2 rfl
  refine ⟨?_, ?_, h3, ?_⟩
  · rw [h1]
    norm_num
  · rw [h2]
    norm_num
  · rw [h4]
    norm_num

/-- C3 counterexample: on an input with every field omitted the breakdown
is returned without failure, but the labor cost — and hence the total —
is NaN, not the zero-cost default the claim states. -/
theorem calculateMaintenanceCost_omitted_hours_counterexample :
    (calculateMaintenanceCost ⟨none, none, none, none, none⟩).laborCost =
      .nan ∧
    (calculateMaintenanceCost ⟨none, none, none, none, none⟩).totalCost =
      .nan ∧
    JSNum.nan ≠ .num 0 := by
  refine ⟨rfl, ?_, by decide⟩
  simp [calculateMaintenanceCost, JSNum.add]

/-- C3 amended: `calculateMaintenanceCost` is total and degrades omitted
materials, services and travel distance to zero cost and an omitted
material quantity to 1, but omitted labor hours yield NaN labor and total
cost (JavaScript `undefined * rate`), not zero. -/
theorem calculateMaintenanceCost_defaults (d : MaintInput) :
    (d.materials = none → (calculateMaintenanceCost d).materialsCost = 0) ∧
    (d.additionalServices = none →
      (calculateMaintenanceCost d).additionalCosts = 0) ∧
    (d.travelDistance = none → (calculateMaintenanceCost d).travelCost = 0) ∧
    (∀ k, materialItemCost ⟨k, none⟩ =
      jsOrQ (materialCosts.lookup k) 0 * 1) ∧
    (d.hours = none →
      (calculateMaintenanceCost d).laborCost = .nan ∧
      (calculateMaintenanceCost d).totalCost = .nan) ∧
    (∀ h, d.hours = some h →
      (calculateMaintenanceCost d).laborCost =
        .num (h * (calculateMaintenanceCost d).hourlyRate)) := by
  refine ⟨?_, ?_, ?_, ?_, ?_, ?_⟩
  · intro h
    simp [calculateMaintenanceCost, h, materialsCostOf]
  · intro h
    simp [calculateMaintenanceCost, h, servicesCostOf]
  · intro h
    simp [calculateMaintenanceCost, h, travelCostOf]
  · intro k
    simp [materialItemCost, jsOrQ]
  · intro h
    constructor
    · simp [calculateMaintenanceCost, h]
    · simp [calculateMaintenanceCost, h, JSNum.add]
  · intro h hh
    simp [calculateMaintenanceCost, hh]

/-- Witness for C3 amended: the all-omitted input produces zero material,
service and travel cost, and present hours produce `hours × rate` labor
cost. -/
theorem calculateMaintenanceCost_defaults_witness :
    (calculateMaintenanceCost ⟨none, none, none, none, none⟩).materialsCost =
      0 ∧
    (calculateMaintenanceCost ⟨none, none, none, none, none⟩).additionalCosts =
      0 ∧
    (calculateMaintenanceCost ⟨none, none, none, none, none⟩).travelCost = 0 ∧
    materialItemCost ⟨"modulo_led", none⟩ =
      jsOrQ (materialCosts.lookup "modulo_led") 0 * 1 ∧
    (calculateMaintenanceCost ⟨some 2, none, none, none, none⟩).laborCost =
      .num (2 *
        (calculateMaintenanceCost ⟨some 2, none, none, none, none⟩).hourlyRate) :=
  ⟨(calculateMaintenanceCost_defaults _).1 rfl,
   (calculateMaintenanceCost_defaults _).2.1 rfl,
   (calculateMaintenanceCost_defaults _).2.2.1 rfl,
   (calculateMaintenanceCost_defaults ⟨none, none, none, none, none⟩).2.2.2.1
     "modulo_led",
   (calculateMaintenanceCost_defaults _).2.2.2.2.2 2 rfl⟩

/-- Evaluation helper: ceiling of 50/50 is 1. -/
lemma ceil_50_div_50 : (⌈(50 : ℚ) / 50⌉ : ℤ) = 1 := by
  rw [Int.ceil_eq_iff] ; norm_num

/-- C6 amended: the breakdown reports labor, materials, additional
services, travel, total and hourly rate with
`total = labor + materials + additional + travel`, and the persisted
record snapshots labor, materials, total and rate individually — but its
`costo_adicional` column is the sum of the additional-services and travel
components, so those two are merged, not carried separately. -/
theorem costBreakdown_components_spec :
    (∀ d : MaintInput,
      (calculateMaintenanceCost d).totalCost =
        ((calculateMaintenanceCost d).laborCost).add
          (.num ((calculateMaintenanceCost d).materialsCost +
            (calculateMaintenanceCost d).additionalCosts +
            (calculateMaintenanceCost d).travelCost))) ∧
    (∀ (d : MaintenanceData) (ts : String),
      (buildMaintenanceRecord d ts).costo_mano_obra =
        (calculateMaintenanceCost
          ⟨d.horas, d.tipo_tecnico, some (d.materiales.getD []),
            some (d.servicios_adicionales.getD []),
            some (d.distancia_traslado.getD 0)⟩).laborCost ∧
      (buildMaintenanceRecord d ts).costo_materiales =
        (calculateMaintenanceCost
          ⟨d.horas, d.tipo_tecnico, some (d.materiales.getD []),
            some (d.servicios_adicionales.getD []),
            some (d.distancia_traslado.getD 0)⟩).materialsCost ∧
      (buildMaintenanceRecord d ts).costo_adicional =
        (calculateMaintenanceCost
          ⟨d.horas, d.tipo_tecnico, some (d.materiales.getD []),
            some (d.servicios_adicionales.getD []),
            some (d.distancia_traslado.getD 0)⟩).additionalCosts +
        (calculateMaintenanceCost
          ⟨d.horas, d.tipo_tecnico, some (d.materiales.getD []),
            some (d.servicios_adicionales.getD []),
            some (d.distancia_traslado.getD 0)⟩).travelCost ∧
      (buildMaintenanceRecord d ts).costo_total =
        (calculateMaintenanceCost
          ⟨d.horas, d.tipo_tecnico, some (d.materiales.getD []),
            some (d.servicios_adicionales.getD []),
            some (d.distancia_traslado.getD 0)⟩).totalCost ∧
      (buildMaintenanceRecord d ts).tasa_horaria =
        (calculateMaintenanceCost
          ⟨d.horas, d.tipo_tecnico, some (d.materiales.getD []),
            some (d.servicios_adicionales.getD []),
            some (d.distancia_traslado.getD 0)⟩).hourlyRate) := by
  constructor
  · intro d
    cases hd : d.hours with
    | none => simp [calculateMaintenanceCost, hd, JSNum.add]
    | some h =>
      simp [calculateMaintenanceCost, hd, JSNum.add]
      ring
  · intro d ts
    exact ⟨rfl, rfl, rfl, rfl, rfl⟩

/-- C6 counterexample: with one `traslado` service (fee 150) and travel
distance 50 (one 150 fee), the persisted `costo_adicional` is 300, while
the additional-services and travel components of the breakdown are 150 each —
the stored record does not carry the two components individually. -/
theorem maintenanceRecord_merged_costs_counterexample :
    (buildMaintenanceRecord
      ⟨1, none, none, some 2, none, none, none, some ["traslado"], some 50⟩
      "2025-01-01").costo_adicional = 300 ∧
    (calculateMaintenanceCost
      ⟨some 2, none, some [], some ["traslado"], some 50⟩).additionalCosts =
      150 ∧
    (calculateMaintenanceCost
      ⟨some 2, none, some [], some ["traslado"], some 50⟩).travelCost = 150 ∧
    (300 : ℚ) ≠ 150 := by
  refine ⟨?_, ?_, ?_, by norm_num⟩ <;>
    norm_num [buildMaintenanceRecord, calculateMaintenanceCost, servicesCostOf,
      serviceCost, travelCostOf, additionalCostsTable, List.lookup, jsOrQ,
      ceil_50_div_50]

/-- C1 amended: the standalone ROI path (`generateROIAnalysis`) reports
the "not profitable" outcome (unbounded months, 0 %, "Pantalla no
rentable") whenever monthly profit or capex is non-positive.  The what-if
path (`calculateROIImpact`) has no such guard — see the
counterexample. -/
theorem generateROIAnalysis_not_profitable (s : Screen)
    (h : monthlyProfitOf s ≤ 0 ∨ calculateCapex_total s.capex_data ≤ 0) :
    generateROIAnalysis s =
      { roiMonths := "∞"
        roiPercentage := "0%"
        paybackPeriod := "No aplica"
        recommendation := "Pantalla no rentable" } := by
  simp only [generateROIAnalysis]
  rw [if_pos h]

/-- Witness for C1 amended: a screen with revenue 100, expense 100 and
capex 50 has zero monthly profit, and the standalone analysis reports
"Pantalla no rentable". -/
theorem generateROIAnalysis_not_profitable_witness :
    generateROIAnalysis
      ⟨some 100, some 100, .parsed [("pantalla", some 50)], none, none⟩ =
      { roiMonths := "∞"
        roiPercentage := "0%"
        paybackPeriod := "No aplica"
        recommendation := "Pantalla no rentable" } :=
  generateROIAnalysis_not_profitable _
    (Or.inl (by norm_num [monthlyProfitOf, jsOrQ]))

/-- C1 counterexample: the what-if maintenance path never produces the
"not profitable" outcome for a non-positive monthly profit.  On a
zero-profit screen with positive capex the adjusted ratio is infinite and
the recommendation is the last tier ("Crítico - Reconsiderar la
inversión"); on a strictly loss-making screen (revenue 90, expense 100)
the adjusted ratio is the finite negative number −6, which passes the
`roi <= 12` test and even lands in the best tier ("Excelente -
Mantenimiento altamente rentable"). -/
theorem calculateROIImpact_no_guard_counterexample :
    monthlyProfitOf
      ⟨some 100, some 100, .parsed [("pantalla", some 50)], none, none⟩ ≤ 0 ∧
    0 < calculateCapexTotal (CapexData.parsed [("pantalla", some 50)]) ∧
    (calculateROIImpact
      ⟨some 100, some 100, .parsed [("pantalla", some 50)], none, none⟩
      10).recommendation = "Crítico - Reconsiderar la inversión" ∧
    (calculateROIImpact
      ⟨some 100, some 100, .parsed [("pantalla", some 50)], none, none⟩
      10).recommendation ≠ "Pantalla no rentable" ∧
    monthlyProfitOf
      ⟨some 90, some 100, .parsed [("pantalla", some 50)], none, none⟩ < 0 ∧
    (calculateROIImpact
      ⟨some 90, some 100, .parsed [("pantalla", some 50)], none, none⟩
      10).recommendation = "Excelente - Mantenimiento altamente rentable" ∧
    (calculateROIImpact
      ⟨some 90, some 100, .parsed [("pantalla", some 50)], none, none⟩
      10).recommendation ≠ "Pantalla no rentable" := by
  have hp : monthlyProfitOf
      ⟨some 100, some 100, .parsed [("pantalla", some 50)], none, none⟩ = 0 := by
    norm_num [monthlyProfitOf, jsOrQ]
  have hpn : monthlyProfitOf
      ⟨some 90, some 100, .parsed [("pantalla", some 50)], none, none⟩ =
      -10 := by
    norm_num [monthlyProfitOf, jsOrQ]
  have hc : calculateCapexTotal (CapexData.parsed [("pantalla", some 50)]) =
      50 := by
    norm_num [calculateCapexTotal, jsOrQ]
  have hr : (calculateROIImpact
      ⟨some 100, some 100, .parsed [("pantalla", some 50)], none, none⟩
      10).recommendation = "Crítico - Reconsiderar la inversión" := by
    simp only [calculateROIImpact, hp, hc]
    norm_num [JSNum.div, getROIRecommendation, JSNum.le]
  have hrn : (calculateROIImpact
      ⟨some 90, some 100, .parsed [("pantalla", some 50)], none, none⟩
      10).recommendation = "Excelente - Mantenimiento altamente rentable" := by
    simp only [calculateROIImpact, hpn, hc]
    norm_num [JSNum.div, getROIRecommendation, JSNum.le]
  refine ⟨le_of_eq hp, ?_, hr, ?_, ?_, hrn, ?_⟩
  · rw [hc]
    norm_num
  · rw [hr]
    decide
  · rw [hpn]
    norm_num
  · rw [hrn]
    decide

/-- Concrete maintenance-creation input used for the C5 evaluation:
an event with 24 labor hours. -/
def mdataC5 : MaintenanceData :=
  ⟨1, some "2025-06-01", some "correctivo", some 24, none, none, none, none,
    none⟩

/-- C5: claim is right and the code is wrong.  The persisted maintenance
record stores labor hours in the `horas` column and has no
`duracion_horas` column, while `calculateDaysOnline` subtracts
`m.duracion_horas || 0`; hence for every record created by
`saveMaintenanceToDB` the subtraction is 0.  Concretely: installed 10
days ago with one saved 24-hour maintenance, the code reports 10 days
online, while subtracting the recorded labor hours would give 9 (as the
last conjunct shows for a row that does carry `duracion_horas`). -/
theorem calculateDaysOnline_ignores_saved_hours :
    (∀ (d : MaintenanceData) (ts : String) (fecha : JSDate),
      (rowOfRecord (buildMaintenanceRecord d ts) fecha).duracion_horas =
        none) ∧
    (buildMaintenanceRecord mdataC5 "2025-06-01").horas = some 24 ∧
    calculateDaysOnline (10 * 86400000)
      [rowOfRecord (buildMaintenanceRecord mdataC5 "2025-06-01")
        ⟨2025, 5⟩] = 10 ∧
    calculateDaysOnline (10 * 86400000)
      [{ rowOfRecord (buildMaintenanceRecord mdataC5 "2025-06-01")
          ⟨2025, 5⟩ with duracion_horas := some 24 }] = 9 := by
  have h1 : (⌊((10 * 86400000 : ℤ) : ℚ) / (1000 * 60 * 60 * 24)⌋ : ℤ) = 10 := by
    rw [Int.floor_eq_iff] ; norm_num
  refine ⟨fun d ts fecha => rfl, rfl, ?_, ?_⟩
  · simp only [calculateDaysOnline, rowOfRecord, List.map, List.sum, jsOrQ, h1]
    rw [Int.floor_eq_iff] ; norm_num
  · simp only [calculateDaysOnline, List.map, List.sum, jsOrQ, h1]
    rw [Int.floor_eq_iff] ; norm_num

/-- The ROI-rule recommendation is not the fallback. -/
lemma recOptimizar_ne_fallback : recOptimizar ≠ recFallback := by
  simp [recOptimizar, recFallback]

/-- The stale-maintenance recommendation is not the fallback. -/
lemma recPreventivo_ne_fallback (n : ℤ) : recPreventivo n ≠ recFallback := by
  simp [recPreventivo, recFallback]

/-- The low-uptime recommendation is not the fallback. -/
lemma recDisponibilidad_ne_fallback (u : ℚ) :
    recDisponibilidad u ≠ recFallback := by
  simp [recDisponibilidad, recFallback]

/-- C4: the recommendation rule set is evaluated in the fixed order
(cached ROI above 24; a newest maintenance exists with
`yearsDiff * 12 + monthsDiff` strictly above 3; uptime below 95), each
triggered rule appends exactly one recommendation, the low-priority
fallback appears exactly when no rule fired, and the length of the list is the
number of triggered rules, or 1 when none triggered. -/
theorem generateRecommendations_spec (s : Screen) (ms : List MRow)
    (today : JSDate) :
    generateRecommendations s ms today =
      (let l :=
        (if jsOrQ s.roi 0 > 24 then [recOptimizar] else []) ++
        (match ms with
         | [] => []
         | m :: _ =>
           if monthsSinceOf today m.fecha > 3 then
             [recPreventivo (monthsSinceOf today m.fecha)]
           else []) ++
        (if jsOrQ s.uptime 0 < 95 then [recDisponibilidad (jsOrQ s.uptime 0)]
         else [])
       if l = [] then [recFallback] else l) ∧
    (generateRecommendations s ms today = [recFallback] ↔
      ¬jsOrQ s.roi 0 > 24 ∧
      (match ms with
       | [] => True
       | m :: _ => ¬monthsSinceOf today m.fecha > 3) ∧
      ¬jsOrQ s.uptime 0 < 95) ∧
    (generateRecommendations s ms today).length =
      (if (if jsOrQ s.roi 0 > 24 then 1 else 0) +
          (match ms with
           | [] => 0
           | m :: _ => if monthsSinceOf today m.fecha > 3 then 1 else 0) +
          (if jsOrQ s.uptime 0 < 95 then 1 else 0) = 0 then 1
       else
        (if jsOrQ s.roi 0 > 24 then 1 else 0) +
          (match ms with
           | [] => 0
           | m :: _ => if monthsSinceOf today m.fecha > 3 then 1 else 0) +
          (if jsOrQ s.uptime 0 < 95 then 1 else 0)) := by
  cases ms with
  | nil =>
    by_cases h1 : jsOrQ s.roi 0 > 24 <;>
      by_cases h3 : jsOrQ s.uptime 0 < 95 <;>
      simp [generateRecommendations, h1, h3, recOptimizar_ne_fallback,
        recDisponibilidad_ne_fallback]
  | cons m rest =>
    by_cases h1 : jsOrQ s.roi 0 > 24 <;>
      by_cases h2 : monthsSinceOf today m.fecha > 3 <;>
      by_cases h3 : jsOrQ s.uptime 0 < 95 <;>
      simp [generateRecommendations, h1, h2, h3, recOptimizar_ne_fallback,
        recPreventivo_ne_fallback, recDisponibilidad_ne_fallback]

end MonitorNUC
